import Mathlib

/-
Verification development for the switch_manager component
(custom_components/switch_manager/__init__.py).

The component keeps two in-memory registries (blueprints, managed switches),
a versioned persistent store, and five websocket command handlers.  Python
dicts are embedded as association lists with unique keys; handlers are
embedded as pure state transformers that also return the ordered list of
externally visible effects (store writes, the websocket response) and an
Except value standing for the Python control flow (ok result vs an
uncaught exception).
-/

/-- Association-list lookup, embedding Python dict.get with default none. -/
def lookupA [DecidableEq κ] : List (κ × α) → κ → Option α
  | [], _ => none
  | (k1, v) :: rest, k => if k = k1 then some v else lookupA rest k

/-- Association-list upsert, embedding Python dict key assignment:
replace the binding when the key is present, append otherwise. -/
def insertA [DecidableEq κ] : List (κ × α) → κ → α → List (κ × α)
  | [], k, v => [(k, v)]
  | (k1, v1) :: rest, k, v =>
    if k1 = k then (k, v) :: rest else (k1, v1) :: insertA rest k v

/-- Association-list removal, embedding Python del on a dict.  Dict keys are
unique, so removing every binding of the key is the same as removing the one
binding; this formulation keeps lookup-after-erase lemmas unconditional. -/
def eraseA [DecidableEq κ] : List (κ × α) → κ → List (κ × α)
  | [], _ => []
  | (k1, v1) :: rest, k =>
    if k1 = k then eraseA rest k else (k1, v1) :: eraseA rest k

/-- Boolean success test for Except, standing for a Python call that did not
raise. -/
def exceptOkB : Except ε α → Bool
  | .ok _ => true
  | .error _ => false

/-- A managed-switch id as admitted by the save-config schema id field:
vol.Any(str, int, None) with the None case carried by Option at use sites. -/
inductive SwitchId
  | str (s : String)
  | int (n : Int)
deriving DecidableEq, Repr

/-- Python truthiness of a non-None id value: the empty string and the
integer zero are falsy. -/
def SwitchId.truthy : SwitchId → Bool
  | .str s => decide (s ≠ "")
  | .int n => decide (n ≠ 0)

/-- Python truthiness of msg config id, embedding
if msg config get id (None is falsy). -/
def idTruthy : Option SwitchId → Bool
  | none => false
  | some i => i.truthy

/-- A validated key-value equality predicate, from CONDITION_SCHEMA
(required key, required value, both strings). -/
structure Condition where
  key : String
  value : String
deriving DecidableEq, Repr

/-- Raw (unvalidated) condition entry: either field may be missing. -/
structure RawCondition where
  key : Option String
  value : Option String
deriving DecidableEq, Repr

/-- Raw blueprint action entry, input to BLUEPRINT_ACTION_SCHEMA. -/
structure RawBlueprintAction where
  title : Option String
  conditions : Option (List RawCondition)
deriving DecidableEq, Repr

/-- Validated blueprint action: required title, optional conditions
(absent validates to the empty list in this embedding). -/
structure BlueprintAction where
  title : String
  conditions : List Condition
deriving DecidableEq, Repr

/-- Raw blueprint button entry, input to BLUEPRINT_BUTTON_SCHEMA. -/
structure RawBlueprintButton where
  actions : Option (List RawBlueprintAction)
  conditions : Option (List RawCondition)
  shape : Option String
  x : Option Nat
  y : Option Nat
  width : Option Nat
  height : Option Nat
  d : Option String
deriving DecidableEq, Repr

/-- Validated blueprint button: required actions, shape defaulted to rect and
restricted to rect, circle or path; geometry fields stay optional. -/
structure BlueprintButton where
  actions : List BlueprintAction
  conditions : List Condition
  shape : String
  x : Option Nat
  y : Option Nat
  width : Option Nat
  height : Option Nat
  d : Option String
deriving DecidableEq, Repr

/-- Raw blueprint definition, input to BLUEPRINT_SCHEMA. -/
structure RawBlueprintData where
  name : Option String
  service : Option String
  event_type : Option String
  identifier_key : Option String
  conditions : Option (List RawCondition)
  buttons : Option (List RawBlueprintButton)
deriving DecidableEq, Repr

/-- Validated blueprint definition, output of BLUEPRINT_SCHEMA. -/
structure ValidatedBlueprint where
  name : String
  service : String
  event_type : String
  identifier_key : String
  conditions : List Condition
  buttons : List BlueprintButton
deriving DecidableEq, Repr

/-- Embeds vol.Required: a missing key is a validation error. -/
def requireField (v : Option α) (msg : String) : Except String α :=
  match v with
  | some x => .ok x
  | none => .error msg

/-- Validates one condition entry against CONDITION_SCHEMA. -/
def validateCondition : RawCondition → Except String Condition
  | ⟨some k, some v⟩ => .ok ⟨k, v⟩
  | _ => .error ("required key missing in condition")

/-- Validates an optional condition list (vol.Optional with ensure_list);
an absent list validates to the empty list in this embedding. -/
def validateConditionList : Option (List RawCondition) → Except String (List Condition)
  | none => .ok []
  | some cs => cs.mapM validateCondition

/-- Validates one action against BLUEPRINT_ACTION_SCHEMA. -/
def validateBlueprintAction (a : RawBlueprintAction) : Except String BlueprintAction := do
  let title ← requireField a.title ("required key title")
  let conds ← validateConditionList a.conditions
  .ok ⟨title, conds⟩

/-- Embeds the shape field rule: optional, default rect, restricted by
vol.In to rect, circle, path. -/
def validateShape : Option String → Except String String
  | none => .ok ("rect")
  | some s => if s = "rect" ∨ s = "circle" ∨ s = "path" then .ok s
              else .error ("shape not in allowed list")

/-- Validates one button against BLUEPRINT_BUTTON_SCHEMA. -/
def validateBlueprintButton (b : RawBlueprintButton) : Except String BlueprintButton := do
  let rawActions ← requireField b.actions ("required key actions")
  let actions ← rawActions.mapM validateBlueprintAction
  let conds ← validateConditionList b.conditions
  let shape ← validateShape b.shape
  .ok ⟨actions, conds, shape, b.x, b.y, b.width, b.height, b.d⟩

/-- Embeds BLUEPRINT_SCHEMA: name, service, event_type, identifier_key and
buttons are required, conditions optional.  Validation either yields the
validated structure or a descriptive error, as in voluptuous. -/
def BLUEPRINT_SCHEMA (d : RawBlueprintData) : Except String ValidatedBlueprint := do
  let name ← requireField d.name ("required key name")
  let service ← requireField d.service ("required key service")
  let event_type ← requireField d.event_type ("required key event_type")
  let identifier_key ← requireField d.identifier_key ("required key identifier_key")
  let conds ← validateConditionList d.conditions
  let rawButtons ← requireField d.buttons ("required key buttons")
  let buttons ← rawButtons.mapM validateBlueprintButton
  .ok ⟨name, service, event_type, identifier_key, conds, buttons⟩

/-- Modelled from the spec: the Blueprint record built by the Blueprint
constructor in models.py (not under src), holding the directory-derived id,
the validated data and the has_image flag. -/
structure Blueprint where
  id : String
  data : ValidatedBlueprint
  has_image : Bool
deriving DecidableEq, Repr

/-- Modelled from the spec: one entry yielded by load_blueprints in
helpers.py (not under src): the directory-derived id, the raw definition
data and the image probe result. -/
structure LoadedBlueprint where
  id : String
  data : RawBlueprintData
  has_image : Bool
deriving DecidableEq, Repr

/-- Result of the blueprint-registry initialisation: the id-keyed registry
and the ids of the entries whose validation failed (each is logged with its
blueprint id by the source). -/
structure BlueprintInitResult where
  registry : List (String × Blueprint)
  errors : List String
deriving DecidableEq, Repr

/-- Loop body of _init_blueprints: validate each loaded entry; on failure
log the blueprint id and continue, on success insert the Blueprint keyed by
its id. -/
def initBlueprintsAux (acc : BlueprintInitResult) :
    List LoadedBlueprint → BlueprintInitResult
  | [] => acc
  | config :: rest =>
    match BLUEPRINT_SCHEMA config.data with
    | .error _ =>
      initBlueprintsAux { acc with errors := acc.errors ++ [config.id] } rest
    | .ok v =>
      initBlueprintsAux
        { acc with registry :=
            insertA acc.registry config.id ⟨config.id, v, config.has_image⟩ } rest

/-- Embeds _init_blueprints: start from an empty registry and process the
loaded entries in order. -/
def _init_blueprints (loaded : List LoadedBlueprint) : BlueprintInitResult :=
  initBlueprintsAux ⟨[], []⟩ loaded

/-- The registry entry an individual loaded blueprint contributes when its
data validates, and none when validation fails. -/
def validEntry (e : LoadedBlueprint) : Option (String × Blueprint) :=
  match BLUEPRINT_SCHEMA e.data with
  | .ok v => some (e.id, ⟨e.id, v, e.has_image⟩)
  | .error _ => none

/-- One action of a saved switch configuration, from
SWITCH_MANAGER_CONFIG_ACTION_SCHEMA: a script mode and a script sequence.
The sequence body is opaque to this component (cv.SCRIPT_SCHEMA) and is
carried as an uninterpreted payload. -/
structure ConfigAction where
  mode : String
  sequence : List String
deriving DecidableEq, Repr

/-- One button of a saved switch configuration, from
SWITCH_MANAGER_CONFIG_BUTTON_SCHEMA. -/
structure ConfigButton where
  actions : List ConfigAction
deriving DecidableEq, Repr

/-- A validated save-config request body, output of
SWITCH_MANAGER_CONFIG_SCHEMA: id is str, int or None; enabled defaults to
true; extra keys are tolerated by the schema and not modelled. -/
structure ConfigData where
  id : Option SwitchId
  name : String
  enabled : Bool
  blueprint : String
  identifier : String
  buttons : List ConfigButton
deriving DecidableEq, Repr

/-- The blueprint field of a managed switch: either a resolved Blueprint or
the raw unresolved id, mirroring the get-with-default-id lookup. -/
inductive BlueprintRef
  | resolved (b : Blueprint)
  | unresolved (id : String)
deriving DecidableEq, Repr

/-- Whether the blueprint reference resolved to a known Blueprint. -/
def BlueprintRef.isResolved : BlueprintRef → Bool
  | .resolved _ => true
  | .unresolved _ => false

/-- The blueprint id carried by a reference: the id of the resolved
Blueprint, or the raw id itself. -/
def BlueprintRef.refId : BlueprintRef → String
  | .resolved b => b.id
  | .unresolved i => i

/-- Modelled from the spec: a ManagedSwitchConfig from models.py (not under
src): id, name, enabled, blueprint reference, identifier, buttons, plus the
derived runtime binding state (bound true iff the event listener is
active). -/
structure ManagedSwitchConfig where
  id : SwitchId
  name : String
  enabled : Bool
  blueprint : BlueprintRef
  identifier : String
  buttons : List ConfigButton
  bound : Bool
deriving DecidableEq, Repr

/-- Modelled from the spec: the ManagedSwitchConfig constructor
(models.py, not under src): fields taken from the validated request data,
with the given id and blueprint reference, initially unbound. -/
def ManagedSwitchConfig.create (bp : BlueprintRef) (id : SwitchId)
    (data : ConfigData) : ManagedSwitchConfig :=
  ⟨id, data.name, data.enabled, bp, data.identifier, data.buttons, false⟩

/-- Modelled from the spec: start tears down any prior binding and
establishes the event-listener binding exactly when the switch is enabled
and its blueprint is resolved. -/
def ManagedSwitchConfig.start (c : ManagedSwitchConfig) : ManagedSwitchConfig :=
  { c with bound := c.enabled && c.blueprint.isResolved }

/-- Modelled from the spec: stop tears down the binding; idempotent. -/
def ManagedSwitchConfig.stop (c : ManagedSwitchConfig) : ManagedSwitchConfig :=
  { c with bound := false }

/-- Modelled from the spec: setEnabled sets the flag only; the caller must
invoke start afterwards (explicit two-phase protocol). -/
def ManagedSwitchConfig.setEnabled (c : ManagedSwitchConfig) (b : Bool) :
    ManagedSwitchConfig :=
  { c with enabled := b }

/-- Modelled from the spec: the serialized form a ManagedSwitchConfig takes
in the persistent store (store.py not under src): the data fields with the
blueprint stored by id, without the runtime binding. -/
structure StoredSwitch where
  name : String
  enabled : Bool
  blueprint : String
  identifier : String
  buttons : List ConfigButton
deriving DecidableEq, Repr

/-- Modelled from the spec: serialization used by set_managed_switch. -/
def serialize (c : ManagedSwitchConfig) : StoredSwitch :=
  ⟨c.name, c.enabled, c.blueprint.refId, c.identifier, c.buttons⟩

/-- Modelled from the spec: the persistent store state (store.py not under
src): a schema-version marker, the managed-switches table, and the counter
backing unique id allocation. -/
structure StoreState where
  schema_version : String
  managed : List (SwitchId × StoredSwitch)
  next_id : Nat
deriving DecidableEq, Repr

/-- Modelled from the spec: get_available_id yields an id not in use and
never reissued, realised as a monotonic counter. -/
def get_available_id (st : StoreState) : SwitchId × StoreState :=
  (.str (toString st.next_id), { st with next_id := st.next_id + 1 })

/-- Modelled from the spec: set_managed_switch upserts the serialized
config keyed by its id, durable before returning. -/
def set_managed_switch (st : StoreState) (c : ManagedSwitchConfig) : StoreState :=
  { st with managed := insertA st.managed c.id (serialize c) }

/-- Modelled from the spec: delete_managed_switch removes the entry,
durable before returning; deleting an unknown id is a no-op. -/
def delete_managed_switch (st : StoreState) (id : SwitchId) : StoreState :=
  { st with managed := eraseA st.managed id }

/-- The component state kept under hass.data: the blueprint registry, the
managed-switch registry and the store. -/
structure SMState where
  blueprints : List (String × Blueprint)
  managed_switches : List (SwitchId × ManagedSwitchConfig)
  store : StoreState
deriving DecidableEq, Repr

/-- Embeds _get_blueprint: dict get with the raw id as the default, so an
unknown id is returned unchanged (tagged here as unresolved). -/
def _get_blueprint (bps : List (String × Blueprint)) (id : String) : BlueprintRef :=
  match lookupA bps id with
  | some b => .resolved b
  | none => .unresolved id

/-- An uncaught Python exception escaping a handler. -/
inductive PyError
  | attributeErrorNone
  | keyError
deriving DecidableEq, Repr

/-- Externally visible effects of a handler, in order of occurrence. -/
inductive Event
  | storeSetManagedSwitch (id : SwitchId)
  | storeDeleteManagedSwitch (id : SwitchId)
  | sendResult
deriving DecidableEq, Repr

/-- Response payload of the save-config handler. -/
structure SaveResponse where
  config_id : SwitchId
  config : ManagedSwitchConfig
deriving DecidableEq, Repr

/-- Response payload of the toggle-enabled handler. -/
structure ToggleResponse where
  switch_id : SwitchId
  enabled : Bool
deriving DecidableEq, Repr

/-- Response payload of the delete-config handler. -/
structure DeleteResponse where
  deleted : String
deriving DecidableEq, Repr

/-- Response payload of the list-configs handler: a single lookup (possibly
none) or the whole registry. -/
inductive ConfigsResponse
  | single (config : Option ManagedSwitchConfig)
  | all (configs : List (SwitchId × ManagedSwitchConfig))
deriving DecidableEq, Repr

/-- Modelled from the spec: ManagedSwitchConfig.update (models.py not under
src) merges the provided fields, re-resolves the blueprint, and rebinds as
stop-then-start; the stable id is not changed. -/
def ManagedSwitchConfig.update (bps : List (String × Blueprint))
    (c : ManagedSwitchConfig) (data : ConfigData) : ManagedSwitchConfig :=
  let c1 : ManagedSwitchConfig :=
    { c with name := data.name, enabled := data.enabled,
             blueprint := _get_blueprint bps data.blueprint,
             identifier := data.identifier, buttons := data.buttons }
  c1.stop.start

/-- Embeds the create branch of websocket_save_config: allocate a fresh id,
construct the switch bound to the blueprint resolved from the request,
register and start it (the two steps of the registry setter), write it
through to the store, then send the result. -/
def saveCreate (s : SMState) (cfg : ConfigData) :
    SMState × List Event × Except PyError SaveResponse :=
  let fresh := get_available_id s.store
  let config := ManagedSwitchConfig.create
    (_get_blueprint s.blueprints cfg.blueprint) fresh.1 cfg
  let started := config.start
  let s1 : SMState :=
    { s with managed_switches := insertA s.managed_switches started.id started,
             store := set_managed_switch fresh.2 started }
  (s1, [.storeSetManagedSwitch started.id, .sendResult], .ok ⟨started.id, started⟩)

/-- Embeds the update branch of websocket_save_config: look up the switch
under the request id; a missing id makes the update call on None raise an
AttributeError before any mutation; otherwise the switch object held in the
registry is updated in place, written through, and the result sent. -/
def saveUpdate (s : SMState) (mid : SwitchId) (cfg : ConfigData) :
    SMState × List Event × Except PyError SaveResponse :=
  match lookupA s.managed_switches mid with
  | none => (s, [], .error .attributeErrorNone)
  | some config =>
    let updated := config.update s.blueprints cfg
    let s1 : SMState :=
      { s with managed_switches := insertA s.managed_switches mid updated,
               store := set_managed_switch s.store updated }
    (s1, [.storeSetManagedSwitch updated.id, .sendResult], .ok ⟨updated.id, updated⟩)

/-- Embeds websocket_save_config: the update branch is taken exactly when
the validated config carries a truthy id, else the create branch. -/
def websocket_save_config (s : SMState) (cfg : ConfigData) :
    SMState × List Event × Except PyError SaveResponse :=
  match cfg.id with
  | some mid => if mid.truthy then saveUpdate s mid cfg else saveCreate s cfg
  | none => saveCreate s cfg

/-- Embeds websocket_toggle_config_enabled: look up by the string config_id;
a missing id makes the setEnabled call on None raise an AttributeError
before any mutation; otherwise set the flag, restart, write through, send. -/
def websocket_toggle_config_enabled (s : SMState) (config_id : String)
    (enabled : Bool) : SMState × List Event × Except PyError ToggleResponse :=
  match lookupA s.managed_switches (.str config_id) with
  | none => (s, [], .error .attributeErrorNone)
  | some config =>
    let toggled := (config.setEnabled enabled).start
    let s1 : SMState :=
      { s with managed_switches := insertA s.managed_switches (.str config_id) toggled,
               store := set_managed_switch s.store toggled }
    (s1, [.storeSetManagedSwitch toggled.id, .sendResult], .ok ⟨toggled.id, enabled⟩)

/-- Embeds websocket_delete_config: the registry subscript in
_remove_switch_config raises a KeyError when the id is absent, before any
mutation; otherwise stop the switch, remove it from the registry, delete it
from the store, send the result. -/
def websocket_delete_config (s : SMState) (config_id : String) :
    SMState × List Event × Except PyError DeleteResponse :=
  match lookupA s.managed_switches (.str config_id) with
  | none => (s, [], .error .keyError)
  | some config =>
    let _stopped := config.stop
    let s1 : SMState :=
      { s with managed_switches := eraseA s.managed_switches (.str config_id),
               store := delete_managed_switch s.store (.str config_id) }
    (s1, [.storeDeleteManagedSwitch (.str config_id), .sendResult],
      .ok ⟨config_id⟩)

/-- Embeds websocket_configs: a truthy config_id yields the single lookup
with the dict-get default of none; an absent or falsy (empty) config_id
yields the whole registry.  The handler always sends a result. -/
def websocket_configs (s : SMState) (config_id : Option String) : ConfigsResponse :=
  match config_id with
  | some cid =>
    if cid ≠ "" then .single (lookupA s.managed_switches (.str cid))
    else .all s.managed_switches
  | none => .all s.managed_switches

/-- State of the migration coordinator environment: the bundled manifest
version, the stored version marker, whether the writable blueprint folder
exists non-empty, and effect counters for deployments and version writes. -/
structure MigrateEnv where
  manifest_version : String
  stored_version : String
  blueprints_folder_nonempty : Bool
  deploys : Nat
  version_writes : Nat
deriving DecidableEq, Repr

/-- Modelled from the spec: store.compare_version (store.py not under src)
is true iff the stored marker equals the given version. -/
def compare_version (s : MigrateEnv) (v : String) : Bool :=
  s.stored_version = v

/-- Modelled from the spec: store.update_version (store.py not under src)
durably persists the new marker; the counter records the write. -/
def update_version (s : MigrateEnv) (v : String) : MigrateEnv :=
  { s with stored_version := v, version_writes := s.version_writes + 1 }

/-- Modelled from the spec: deploy_blueprints (helpers.py not under src)
copies the bundled assets into the writable folder, creating it if absent;
the counter records the deployment. -/
def deploy_blueprints (s : MigrateEnv) : MigrateEnv :=
  { s with blueprints_folder_nonempty := true, deploys := s.deploys + 1 }

/-- Modelled from the spec: check_blueprints_folder_exists (helpers.py not
under src) probes the writable folder for existence and non-emptiness. -/
def check_blueprints_folder_exists (s : MigrateEnv) : Bool :=
  s.blueprints_folder_nonempty

/-- Embeds async_migrate: when the stored version differs from the bundled
manifest version, deploy and persist the new marker and return true; else
when the writable folder is missing, deploy without a version bump; in both
remaining cases return false. -/
def async_migrate (s : MigrateEnv) : MigrateEnv × Bool :=
  if ¬ compare_version s s.manifest_version then
    let s1 := deploy_blueprints s
    let s2 := update_version s1 s1.manifest_version
    (s2, true)
  else if ¬ check_blueprints_folder_exists s then
    (deploy_blueprints s, false)
  else
    (s, false)

theorem lookupA_insertA_self [DecidableEq κ] (m : List (κ × α)) (k : κ) (v : α) :
    lookupA (insertA m k v) k = some v := by
  induction m with
  | nil => simp [insertA, lookupA]
  | cons p rest ih =>
    obtain ⟨k1, v1⟩ := p
    by_cases h : k1 = k
    · subst h; simp [insertA, lookupA]
    · simp [insertA, h, lookupA, Ne.symm h, ih]

theorem lookupA_insertA_ne [DecidableEq κ] (m : List (κ × α)) (k k2 : κ) (v : α)
    (h : k2 ≠ k) : lookupA (insertA m k v) k2 = lookupA m k2 := by
  induction m with
  | nil => simp [insertA, lookupA, h]
  | cons p rest ih =>
    obtain ⟨k1, v1⟩ := p
    by_cases hk : k1 = k
    · subst hk; simp [insertA, lookupA, h]
    · simp [insertA, hk, lookupA, ih]

theorem lookupA_eraseA_self [DecidableEq κ] (m : List (κ × α)) (k : κ) :
    lookupA (eraseA m k) k = none := by
  induction m with
  | nil => simp [eraseA, lookupA]
  | cons p rest ih =>
    obtain ⟨k1, v1⟩ := p
    by_cases h : k1 = k
    · simp [eraseA, h, ih]
    · simp [eraseA, h, lookupA, Ne.symm h, ih]

theorem lookupA_mem [DecidableEq κ] (m : List (κ × α)) (k : κ) (v : α)
    (h : lookupA m k = some v) : (k, v) ∈ m := by
  induction m with
  | nil => simp [lookupA] at h
  | cons p rest ih =>
    obtain ⟨k1, v1⟩ := p
    by_cases hk : k = k1
    · subst hk
      simp [lookupA] at h
      subst h
      exact List.mem_cons_self _ _
    · simp [lookupA, hk] at h
      exact List.mem_cons_of_mem _ (ih h)

/-- C3 counterexample: with versions equal, the repaired run (blueprint
folder absent, hence a deployment happens) returns the same value as the
unchanged run (folder intact, no deployment), so the repaired outcome is
not distinguishable from the unchanged outcome in the returned value. -/
theorem migrate_repaired_indistinguishable_counterexample :
    (async_migrate ⟨"1", "1", false, 0, 0⟩).2
      = (async_migrate ⟨"1", "1", true, 0, 0⟩).2
    ∧ (async_migrate ⟨"1", "1", false, 0, 0⟩).1.deploys = 1
    ∧ (async_migrate ⟨"1", "1", true, 0, 0⟩).1.deploys = 0 := by
  decide

/-- C3 amended: migrate returns only a two-valued outcome: true exactly when
the stored version differs from the manifest version (migrated); the
repaired case (versions equal, folder absent) redeploys assets but returns
the same false as the unchanged case (versions equal, folder intact). -/
theorem migrate_two_valued_return (s : MigrateEnv) :
    ((async_migrate s).2 = true ↔ ¬ s.stored_version = s.manifest_version)
    ∧ (s.stored_version = s.manifest_version →
        s.blueprints_folder_nonempty = false →
        (async_migrate s).1.deploys = s.deploys + 1 ∧ (async_migrate s).2 = false)
    ∧ (s.stored_version = s.manifest_version →
        s.blueprints_folder_nonempty = true →
        async_migrate s = (s, false)) := by
  unfold async_migrate compare_version check_blueprints_folder_exists
    deploy_blueprints update_version
  by_cases h : s.stored_version = s.manifest_version
  · by_cases hf : s.blueprints_folder_nonempty
    · simp [h, hf]
    · simp [h, hf]
  · simp [h]

/-- C3 amended witness at concrete inputs: a version change returns true; a
repair run deploys and returns false. -/
theorem migrate_two_valued_return_witness :
    (async_migrate ⟨"2", "1", true, 0, 0⟩).2 = true
    ∧ ((async_migrate ⟨"3", "3", false, 0, 0⟩).1.deploys = 1
       ∧ (async_migrate ⟨"3", "3", false, 0, 0⟩).2 = false) := by
  refine ⟨?_, ?_⟩
  · exact (migrate_two_valued_return ⟨"2", "1", true, 0, 0⟩).1.mpr (by decide)
  · exact (migrate_two_valued_return ⟨"3", "3", false, 0, 0⟩).2.1 (by decide) (by decide)

/-- C4: migrate is idempotent: with the stored version equal to the manifest
version and the blueprint folder intact it is a complete no-op (no
deployment, no version write, state unchanged), and a second invocation
immediately after any invocation is always such a no-op. -/
theorem migrate_idempotent (s : MigrateEnv) :
    (s.stored_version = s.manifest_version → s.blueprints_folder_nonempty = true →
      async_migrate s = (s, false))
    ∧ async_migrate (async_migrate s).1 = ((async_migrate s).1, false) := by
  unfold async_migrate compare_version check_blueprints_folder_exists
    deploy_blueprints update_version
  by_cases h : s.stored_version = s.manifest_version
  · by_cases hf : s.blueprints_folder_nonempty
    · simp [h, hf]
    · simp [h, hf]
  · simp [h]

/-- C4 witness at a concrete input: the second run after a migration from
stored version 1 to manifest version 2 is a no-op. -/
theorem migrate_idempotent_witness :
    async_migrate ⟨"1", "1", true, 0, 0⟩ = (⟨"1", "1", true, 0, 0⟩, false)
    ∧ async_migrate (async_migrate ⟨"2", "1", false, 3, 4⟩).1
        = ((async_migrate ⟨"2", "1", false, 3, 4⟩).1, false) :=
  ⟨(migrate_idempotent ⟨"1", "1", true, 0, 0⟩).1 (by decide) (by decide),
   (migrate_idempotent ⟨"2", "1", false, 3, 4⟩).2⟩

/-- C5: with the stored version equal to the manifest version but the
writable blueprint folder absent, migrate redeploys the bundled assets and
leaves the stored version marker untouched (no version write). -/
theorem migrate_repair_no_version_bump (s : MigrateEnv)
    (h1 : s.stored_version = s.manifest_version)
    (h2 : s.blueprints_folder_nonempty = false) :
    (async_migrate s).1.deploys = s.deploys + 1
    ∧ (async_migrate s).1.stored_version = s.stored_version
    ∧ (async_migrate s).1.version_writes = s.version_writes
    ∧ (async_migrate s).1.blueprints_folder_nonempty = true := by
  unfold async_migrate compare_version check_blueprints_folder_exists
    deploy_blueprints
  simp [h1, h2]

/-- C5 witness at a concrete input. -/
theorem migrate_repair_no_version_bump_witness :
    (async_migrate ⟨"1", "1", false, 0, 0⟩).1.deploys = 1
    ∧ (async_migrate ⟨"1", "1", false, 0, 0⟩).1.stored_version = "1"
    ∧ (async_migrate ⟨"1", "1", false, 0, 0⟩).1.version_writes = 0
    ∧ (async_migrate ⟨"1", "1", false, 0, 0⟩).1.blueprints_folder_nonempty = true :=
  migrate_repair_no_version_bump ⟨"1", "1", false, 0, 0⟩ (by decide) (by decide)

/-- A concrete validated blueprint body used by concrete instantiations. -/
def sampleValidated : ValidatedBlueprint :=
  ⟨"Basic", "svc", "evt", "btn_id", [], []⟩

/-- A concrete registered blueprint used by concrete instantiations. -/
def sampleBlueprint : Blueprint := ⟨"basic", sampleValidated, false⟩

/-- A concrete validated save-config body without an id. -/
def sampleCfg : ConfigData :=
  ⟨none, "Kitchen", true, "basic", "sw1", [⟨[⟨"single", []⟩]⟩]⟩

/-- A concrete managed switch as the create branch would build and start it
under id 0. -/
def sampleSwitch : ManagedSwitchConfig :=
  (ManagedSwitchConfig.create (.resolved sampleBlueprint) (.str "0") sampleCfg).start

/-- A concrete component state holding one blueprint and one managed switch
that agrees with the store. -/
def sampleState : SMState :=
  ⟨[("basic", sampleBlueprint)],
   [(SwitchId.str "0", sampleSwitch)],
   ⟨"1", [(SwitchId.str "0", serialize sampleSwitch)], 1⟩⟩

/-- A concrete component state with empty registries and store. -/
def emptyState : SMState := ⟨[], [], ⟨"1", [], 0⟩⟩

/-- C7: blueprint lookup returns the registered Blueprint when the id is a
registry key, and otherwise returns the raw id itself unchanged (tagged as
unresolved). -/
theorem get_blueprint_resolution (bps : List (String × Blueprint)) (id : String) :
    (∀ b, lookupA bps id = some b → _get_blueprint bps id = .resolved b)
    ∧ (lookupA bps id = none → _get_blueprint bps id = .unresolved id) := by
  unfold _get_blueprint
  constructor
  · intro b h; rw [h]
  · intro h; rw [h]

/-- C7 witness at concrete inputs: a known id resolves, an unknown id is
returned unchanged. -/
theorem get_blueprint_resolution_witness :
    _get_blueprint [("basic", sampleBlueprint)] "basic"
      = BlueprintRef.resolved sampleBlueprint
    ∧ _get_blueprint [("basic", sampleBlueprint)] "other"
      = BlueprintRef.unresolved "other" :=
  ⟨(get_blueprint_resolution [("basic", sampleBlueprint)] "basic").1
      sampleBlueprint (by decide),
   (get_blueprint_resolution [("basic", sampleBlueprint)] "other").2 (by decide)⟩

/-- C2 (code behaviour at the failing input): when the config_id is not a
key of the managed-switch registry, the toggle handler raises an uncaught
AttributeError (method call on the None lookup default) and the delete
handler raises an uncaught KeyError (registry subscript), in both cases
before any mutation: the state is unchanged and no store write, store
delete or response occurs.  Neither handler produces a structured
not-found error. -/
theorem toggle_delete_missing_unhandled_fault (s : SMState) (cid : String)
    (en : Bool)
    (h : lookupA s.managed_switches (SwitchId.str cid) = none) :
    websocket_toggle_config_enabled s cid en
      = (s, [], .error .attributeErrorNone)
    ∧ websocket_delete_config s cid = (s, [], .error .keyError) := by
  unfold websocket_toggle_config_enabled websocket_delete_config
  rw [h]
  exact ⟨rfl, rfl⟩

/-- C2 witness at a concrete input: a one-switch state and an unknown id. -/
theorem toggle_delete_missing_unhandled_fault_witness :
    websocket_toggle_config_enabled sampleState "missing" true
      = (sampleState, [], .error .attributeErrorNone)
    ∧ websocket_delete_config sampleState "missing"
      = (sampleState, [], .error .keyError) :=
  toggle_delete_missing_unhandled_fault sampleState "missing" true (by decide)

/-- C10 counterexample: a request whose config_id is the empty string (a
valid string, absent from the registry) is falsy in the handler guard, so
the handler answers with the all-configs payload, not with a payload whose
config field is the none lookup default. -/
theorem configs_empty_id_counterexample :
    lookupA emptyState.managed_switches (SwitchId.str "") = none
    ∧ websocket_configs emptyState (some "") ≠ ConfigsResponse.single none := by
  decide

/-- C10 amended: for every list-configs request whose config_id is truthy
(non-empty) and not present in the registry, the handler responds
successfully with a payload whose config field is the none lookup default
(the handler is total: it never produces a not-found error); a request with
an empty config_id is treated as if no config_id was given and yields the
all-configs payload. -/
theorem configs_unknown_id_returns_none (s : SMState) (cid : String)
    (hc : cid ≠ "")
    (h : lookupA s.managed_switches (SwitchId.str cid) = none) :
    websocket_configs s (some cid) = .single none := by
  simp [websocket_configs, hc, h]

/-- C10 amended witness at a concrete input. -/
theorem configs_unknown_id_returns_none_witness :
    websocket_configs emptyState (some "missing") = ConfigsResponse.single none :=
  configs_unknown_id_returns_none emptyState "missing" (by decide) (by decide)

theorem insertA_of_notMem [DecidableEq κ] (m : List (κ × α)) (k : κ) (v : α)
    (h : ∀ p ∈ m, p.1 ≠ k) : insertA m k v = m ++ [(k, v)] := by
  induction m with
  | nil => simp [insertA]
  | cons p rest ih =>
    obtain ⟨k1, v1⟩ := p
    have hk : k1 ≠ k := h (k1, v1) (List.mem_cons_self _ _)
    simp only [insertA, if_neg hk, List.cons_append, List.cons.injEq, true_and]
    exact ih (fun q hq => h q (List.mem_cons_of_mem _ hq))

theorem initBlueprintsAux_spec (l : List LoadedBlueprint) :
    ∀ acc : BlueprintInitResult,
    (l.map LoadedBlueprint.id).Nodup →
    (∀ p ∈ acc.registry, ∀ e ∈ l, p.1 ≠ e.id) →
    initBlueprintsAux acc l
      = ⟨acc.registry ++ l.filterMap validEntry,
         acc.errors
           ++ (l.filter fun e => !exceptOkB (BLUEPRINT_SCHEMA e.data)).map
                LoadedBlueprint.id⟩ := by
  induction l with
  | nil => intro acc _ _; simp [initBlueprintsAux]
  | cons e rest ih =>
    intro acc hnd hdis
    have hnd2 : (rest.map LoadedBlueprint.id).Nodup := by
      simpa using (List.nodup_cons.mp (by simpa using hnd)).2
    have hid : e.id ∉ rest.map LoadedBlueprint.id :=
      (List.nodup_cons.mp (by simpa using hnd)).1
    cases hbs : BLUEPRINT_SCHEMA e.data with
    | error msg =>
      have hdis2 : ∀ p ∈ acc.registry, ∀ e2 ∈ rest, p.1 ≠ e2.id :=
        fun p hp e2 he2 => hdis p hp e2 (List.mem_cons_of_mem _ he2)
      simp only [initBlueprintsAux, hbs]
      rw [ih ⟨acc.registry, acc.errors ++ [e.id]⟩ hnd2 hdis2]
      simp [validEntry, hbs, exceptOkB, List.filterMap_cons, List.filter_cons]
    | ok v =>
      have hnew : ∀ p ∈ acc.registry, p.1 ≠ e.id :=
        fun p hp => hdis p hp e (List.mem_cons_self _ _)
      have hins : insertA acc.registry e.id ⟨e.id, v, e.has_image⟩
          = acc.registry ++ [(e.id, ⟨e.id, v, e.has_image⟩)] :=
        insertA_of_notMem _ _ _ hnew
      have hdis2 :
          ∀ p ∈ acc.registry ++ [(e.id, (⟨e.id, v, e.has_image⟩ : Blueprint))],
          ∀ e2 ∈ rest, p.1 ≠ e2.id := by
        intro p hp e2 he2
        rcases List.mem_append.mp hp with hp1 | hp1
        · exact hdis p hp1 e2 (List.mem_cons_of_mem _ he2)
        · have : p = (e.id, (⟨e.id, v, e.has_image⟩ : Blueprint)) := by
            simpa using hp1
          subst this
          intro hcontra
          apply hid
          rw [show e.id = e2.id from hcontra]
          exact List.mem_map_of_mem LoadedBlueprint.id he2
      simp only [initBlueprintsAux, hbs]
      rw [show ({ acc with registry := insertA acc.registry e.id ⟨e.id, v, e.has_image⟩ }
            : BlueprintInitResult)
          = { acc with registry := acc.registry ++ [(e.id, ⟨e.id, v, e.has_image⟩)] } by
        rw [hins]]
      rw [ih _ hnd2 hdis2]
      simp [validEntry, hbs, exceptOkB, List.filterMap_cons, List.filter_cons]

theorem length_filterMap_validEntry (l : List LoadedBlueprint) :
    (l.filterMap validEntry).length
      = (l.filter fun e => exceptOkB (BLUEPRINT_SCHEMA e.data)).length := by
  induction l with
  | nil => rfl
  | cons e rest ih =>
    cases hbs : BLUEPRINT_SCHEMA e.data with
    | ok v =>
      simp [validEntry, hbs, exceptOkB, List.filterMap_cons, List.filter_cons, ih]
    | error msg =>
      simp [validEntry, hbs, exceptOkB, List.filterMap_cons, List.filter_cons, ih]

/-- C6: over any loaded blueprint sequence with (directory-derived, hence
distinct) ids, initialisation yields the registry holding exactly the
entries whose data validates, each keyed by its id and carrying its id,
validated data and image flag; the registry size equals the number of valid
entries; and the ids of the invalid entries are exactly the logged errors,
in order, so an invalid entry never prevents later entries from loading. -/
theorem init_blueprints_isolation (l : List LoadedBlueprint)
    (hnd : (l.map LoadedBlueprint.id).Nodup) :
    (_init_blueprints l).registry = l.filterMap validEntry
    ∧ (_init_blueprints l).registry.length
        = (l.filter fun e => exceptOkB (BLUEPRINT_SCHEMA e.data)).length
    ∧ (_init_blueprints l).errors
        = (l.filter fun e => !exceptOkB (BLUEPRINT_SCHEMA e.data)).map
            LoadedBlueprint.id := by
  have h := initBlueprintsAux_spec l ⟨[], []⟩ hnd (by simp)
  unfold _init_blueprints
  rw [h]
  exact ⟨by simp, by simpa using length_filterMap_validEntry l, by simp⟩

/-- A concrete loaded blueprint entry that validates. -/
def sampleLoadedGood1 : LoadedBlueprint :=
  ⟨"bp1", ⟨some "N1", some "s1", some "e1", some "k1", none, some []⟩, false⟩

/-- A concrete loaded blueprint entry whose required name is missing. -/
def sampleLoadedBad : LoadedBlueprint :=
  ⟨"bad", ⟨none, some "s2", some "e2", some "k2", none, some []⟩, false⟩

/-- A second concrete loaded blueprint entry that validates, listed after
the invalid one. -/
def sampleLoadedGood2 : LoadedBlueprint :=
  ⟨"bp2", ⟨some "N2", some "s2", some "e2", some "k2", none, some []⟩, true⟩

/-- C6 witness at a concrete input: two valid entries around one invalid
entry yield a registry of size two and the single logged id. -/
theorem init_blueprints_isolation_witness :
    ([sampleLoadedGood1, sampleLoadedBad, sampleLoadedGood2].map
        LoadedBlueprint.id).Nodup
    ∧ (_init_blueprints
        [sampleLoadedGood1, sampleLoadedBad, sampleLoadedGood2]).registry.length = 2
    ∧ (_init_blueprints
        [sampleLoadedGood1, sampleLoadedBad, sampleLoadedGood2]).errors = ["bad"] := by
  refine ⟨by decide, ?_, ?_⟩
  · exact (init_blueprints_isolation _ (by decide)).2.1
  · exact (init_blueprints_isolation _ (by decide)).2.2

/-- The registry invariant maintained by the component: every managed
switch is keyed by its own id. -/
def registryConsistent (s : SMState) : Bool :=
  s.managed_switches.all (fun p => decide (p.2.id = p.1))

theorem registryConsistent_lookup (s : SMState)
    (h : registryConsistent s = true) (k : SwitchId) (c : ManagedSwitchConfig)
    (hl : lookupA s.managed_switches k = some c) : c.id = k := by
  have hm := lookupA_mem _ _ _ hl
  have hp := List.all_eq_true.mp h _ hm
  simpa using hp

/-- Agreement of the in-memory registry and the persisted store on one
switch id: the store holds exactly the serialization of the registry entry
(and in particular both are absent together). -/
def StoreAgrees (s : SMState) (k : SwitchId) : Prop :=
  lookupA s.store.managed k = Option.map serialize (lookupA s.managed_switches k)

/-- The config_id carried by a successful save response. -/
def saveRespId : Except PyError SaveResponse → Option SwitchId
  | .ok r => some r.config_id
  | .error _ => none

/-- The switch_id carried by a successful toggle response. -/
def toggleRespId : Except PyError ToggleResponse → Option SwitchId
  | .ok r => some r.switch_id
  | .error _ => none

theorem saveCreate_spec (s : SMState) (cfg : ConfigData) (k : SwitchId)
    (hk : saveRespId (saveCreate s cfg).2.2 = some k) :
    (saveCreate s cfg).2.1 = [Event.storeSetManagedSwitch k, Event.sendResult]
    ∧ StoreAgrees (saveCreate s cfg).1 k := by
  unfold saveCreate at *
  simp only [saveRespId, Option.some.injEq] at hk
  subst hk
  refine ⟨rfl, ?_⟩
  unfold StoreAgrees set_managed_switch
  simp [lookupA_insertA_self]

theorem saveUpdate_spec (s : SMState) (hinv : registryConsistent s = true)
    (mid : SwitchId) (cfg : ConfigData) (k : SwitchId)
    (hk : saveRespId (saveUpdate s mid cfg).2.2 = some k) :
    (saveUpdate s mid cfg).2.1 = [Event.storeSetManagedSwitch k, Event.sendResult]
    ∧ StoreAgrees (saveUpdate s mid cfg).1 k := by
  unfold saveUpdate at *
  cases hl : lookupA s.managed_switches mid with
  | none => rw [hl] at hk; simp [saveRespId] at hk
  | some config =>
    rw [hl] at hk
    have hid : config.id = mid := registryConsistent_lookup s hinv mid config hl
    simp only [saveRespId, Option.some.injEq] at hk
    have hupd : (config.update s.blueprints cfg).id = mid := hid
    subst hk
    refine ⟨rfl, ?_⟩
    unfold StoreAgrees set_managed_switch
    simp only
    rw [hupd, lookupA_insertA_self, lookupA_insertA_self]
    rfl

theorem toggle_spec (s : SMState) (hinv : registryConsistent s = true)
    (cid : String) (en : Bool) (k : SwitchId)
    (hk : toggleRespId (websocket_toggle_config_enabled s cid en).2.2 = some k) :
    (websocket_toggle_config_enabled s cid en).2.1
      = [Event.storeSetManagedSwitch k, Event.sendResult]
    ∧ StoreAgrees (websocket_toggle_config_enabled s cid en).1 k := by
  unfold websocket_toggle_config_enabled at *
  cases hl : lookupA s.managed_switches (SwitchId.str cid) with
  | none => rw [hl] at hk; simp [toggleRespId] at hk
  | some config =>
    rw [hl] at hk
    have hid : config.id = SwitchId.str cid :=
      registryConsistent_lookup s hinv (SwitchId.str cid) config hl
    simp only [toggleRespId, Option.some.injEq] at hk
    have hupd : ((config.setEnabled en).start).id = SwitchId.str cid := hid
    subst hk
    refine ⟨rfl, ?_⟩
    unfold StoreAgrees set_managed_switch
    simp only
    rw [hupd, lookupA_insertA_self, lookupA_insertA_self]
    rfl

theorem delete_spec (s : SMState) (cid : String)
    (hk : exceptOkB (websocket_delete_config s cid).2.2 = true) :
    (websocket_delete_config s cid).2.1
      = [Event.storeDeleteManagedSwitch (SwitchId.str cid), Event.sendResult]
    ∧ StoreAgrees (websocket_delete_config s cid).1 (SwitchId.str cid) := by
  unfold websocket_delete_config at *
  cases hl : lookupA s.managed_switches (SwitchId.str cid) with
  | none => rw [hl] at hk; simp [exceptOkB] at hk
  | some config =>
    refine ⟨rfl, ?_⟩
    unfold StoreAgrees delete_managed_switch
    simp only
    rw [lookupA_eraseA_self, lookupA_eraseA_self]
    rfl

/-- C1: for each mutating handler, whenever the handler produces a success
response, its effect sequence is exactly the durable store mutation for the
affected switch followed by the response (so the store write or delete
completes before the result is sent), and in the post state the in-memory
registry and the persisted store agree on that switch. -/
theorem write_through_agreement (s : SMState)
    (hinv : registryConsistent s = true) :
    (∀ cfg : ConfigData, ∀ k : SwitchId,
      saveRespId (websocket_save_config s cfg).2.2 = some k →
        (websocket_save_config s cfg).2.1
          = [Event.storeSetManagedSwitch k, Event.sendResult]
        ∧ StoreAgrees (websocket_save_config s cfg).1 k)
    ∧ (∀ cid : String, ∀ en : Bool, ∀ k : SwitchId,
      toggleRespId (websocket_toggle_config_enabled s cid en).2.2 = some k →
        (websocket_toggle_config_enabled s cid en).2.1
          = [Event.storeSetManagedSwitch k, Event.sendResult]
        ∧ StoreAgrees (websocket_toggle_config_enabled s cid en).1 k)
    ∧ (∀ cid : String, exceptOkB (websocket_delete_config s cid).2.2 = true →
        (websocket_delete_config s cid).2.1
          = [Event.storeDeleteManagedSwitch (SwitchId.str cid), Event.sendResult]
        ∧ StoreAgrees (websocket_delete_config s cid).1 (SwitchId.str cid)) := by
  refine ⟨?_, fun cid en k hk => toggle_spec s hinv cid en k hk,
    fun cid hk => delete_spec s cid hk⟩
  intro cfg k hk
  cases hcid : cfg.id with
  | none =>
    have he : websocket_save_config s cfg = saveCreate s cfg := by
      unfold websocket_save_config; rw [hcid]
    rw [he] at hk ⊢
    exact saveCreate_spec s cfg k hk
  | some mid =>
    by_cases ht : mid.truthy = true
    · have he : websocket_save_config s cfg = saveUpdate s mid cfg := by
        unfold websocket_save_config; rw [hcid]; simp [ht]
      rw [he] at hk ⊢
      exact saveUpdate_spec s hinv mid cfg k hk
    · have he : websocket_save_config s cfg = saveCreate s cfg := by
        unfold websocket_save_config; rw [hcid]; simp [ht]
      rw [he] at hk ⊢
      exact saveCreate_spec s cfg k hk

/-- C1 witness at a concrete input: deleting the single stored switch emits
the store delete before the response and leaves registry and store agreeing
(both without the switch). -/
theorem write_through_agreement_witness :
    registryConsistent sampleState = true
    ∧ ((websocket_delete_config sampleState "0").2.1
        = [Event.storeDeleteManagedSwitch (SwitchId.str "0"), Event.sendResult]
      ∧ StoreAgrees (websocket_delete_config sampleState "0").1 (SwitchId.str "0")) :=
  ⟨by decide, (write_through_agreement sampleState (by decide)).2.2 "0" (by decide)⟩

/-- C8: a save-config request whose validated config carries no truthy id
takes the create path: the response is a success carrying the id freshly
allocated by the store and the new switch; that switch is constructed from
the request data, bound to the blueprint resolved from the request
blueprint field, registered under the fresh id and started; its
serialization is written through to the store under the fresh id; and the
store write precedes the response in the effect sequence. -/
theorem save_config_create_fresh_id (s : SMState) (cfg : ConfigData)
    (h : idTruthy cfg.id = false) :
    (websocket_save_config s cfg).2.2
      = .ok ⟨(get_available_id s.store).1,
             (ManagedSwitchConfig.create
               (_get_blueprint s.blueprints cfg.blueprint)
               (get_available_id s.store).1 cfg).start⟩
    ∧ lookupA (websocket_save_config s cfg).1.managed_switches
        (get_available_id s.store).1
      = some ((ManagedSwitchConfig.create
               (_get_blueprint s.blueprints cfg.blueprint)
               (get_available_id s.store).1 cfg).start)
    ∧ lookupA (websocket_save_config s cfg).1.store.managed
        (get_available_id s.store).1
      = some (serialize ((ManagedSwitchConfig.create
               (_get_blueprint s.blueprints cfg.blueprint)
               (get_available_id s.store).1 cfg).start))
    ∧ (websocket_save_config s cfg).2.1
      = [Event.storeSetManagedSwitch (get_available_id s.store).1,
         Event.sendResult] := by
  have he : websocket_save_config s cfg = saveCreate s cfg := by
    unfold websocket_save_config
    cases hcid : cfg.id with
    | none => rfl
    | some mid =>
      rw [hcid] at h
      simp only [idTruthy] at h
      simp [h]
  rw [he]
  unfold saveCreate
  refine ⟨rfl, ?_, ?_, rfl⟩
  · exact lookupA_insertA_self _ _ _
  · exact lookupA_insertA_self _ _ _

/-- C8 witness at a concrete input: saving a config without an id in the
one-blueprint state yields the fresh id and the write-then-respond effect
order. -/
theorem save_config_create_fresh_id_witness :
    idTruthy sampleCfg.id = false
    ∧ (websocket_save_config sampleState sampleCfg).2.1
      = [Event.storeSetManagedSwitch (get_available_id sampleState.store).1,
         Event.sendResult] :=
  ⟨by decide,
   (save_config_create_fresh_id sampleState sampleCfg (by decide)).2.2.2⟩

/-- C9: a save-config request whose validated id is falsy (None, the
integer 0 or the empty string, all admitted by the schema id type) behaves
exactly as a request with no id: it takes the create path, the response
carries the freshly store-allocated id, and no existing registry entry
(in particular none keyed by 0 or the empty string) is updated. -/
theorem save_config_falsy_id_creates (s : SMState) (cfg : ConfigData)
    (h : cfg.id = none ∨ cfg.id = some (SwitchId.int 0)
         ∨ cfg.id = some (SwitchId.str "")) :
    websocket_save_config s cfg = websocket_save_config s { cfg with id := none }
    ∧ Except.map SaveResponse.config_id (websocket_save_config s cfg).2.2
        = .ok (get_available_id s.store).1
    ∧ ∀ k, k ≠ (get_available_id s.store).1 →
        lookupA (websocket_save_config s cfg).1.managed_switches k
          = lookupA s.managed_switches k := by
  obtain ⟨id0, name, en, bp, idf, btns⟩ := cfg
  simp only at h
  rcases h with h | h | h <;> subst h <;>
    exact ⟨rfl, rfl, fun k hk => lookupA_insertA_ne _ _ _ _ hk⟩

/-- C9 witness at a concrete input: a config whose id is the integer 0, in
a state that has a switch registered under the integer 0, leaves that
switch untouched and creates a new one under the fresh id. -/
theorem save_config_falsy_id_creates_witness :
    (let cfg0 : ConfigData :=
      ⟨some (SwitchId.int 0), "Kitchen", true, "basic", "sw1", []⟩
    let switch0 : ManagedSwitchConfig :=
      (ManagedSwitchConfig.create (.resolved sampleBlueprint)
        (SwitchId.int 0) cfg0).start
    let s0 : SMState :=
      ⟨[("basic", sampleBlueprint)], [(SwitchId.int 0, switch0)],
       ⟨"1", [(SwitchId.int 0, serialize switch0)], 1⟩⟩
    Except.map SaveResponse.config_id (websocket_save_config s0 cfg0).2.2
        = .ok (get_available_id s0.store).1
    ∧ lookupA (websocket_save_config s0 cfg0).1.managed_switches
        (SwitchId.int 0) = lookupA s0.managed_switches (SwitchId.int 0)) := by
  refine ⟨?_, ?_⟩
  · exact (save_config_falsy_id_creates _ _ (by simp)).2.1
  · exact (save_config_falsy_id_creates _ _ (by simp)).2.2 _ (by decide)
